import Mathlib

/-!
Verification of the HH-Schulbau-Monitor dashboard (src/app.py).

The Python helpers are shallowly embedded as pure Lean functions.  Network
effects are made explicit: each function that performs an HTTP request
takes an oracle describing the outcome of that request, and functions
whose behaviour depends on the number of requests issued additionally
return the number of `requests.get` calls they performed.  Python floats
are modelled as exact rationals (no claim depends on rounding), JSON
payloads are modelled at the schema the code reads, with `Option` for
possibly-missing keys, and a bare `except:` clause is modelled by mapping
every raising branch to the exceptional result.  Every Lean function here
is total by construction, which embeds the fact that the corresponding
Python helper never lets an exception escape.
-/

namespace HHMonitor

/-- One element of the geocoding JSON array returned by the nominatim
service.  The code reads `data[0]["lat"]` and `data[0]["lon"]` and
converts them with `float(...)`; `none` models a missing key or an
unparseable value, either of which raises inside the `try:` block and is
swallowed by the bare `except:`. -/
structure GeoEntry where
  lat : Option ℚ
  lon : Option ℚ
deriving DecidableEq

/-- An HTTP response to the geocoding request: the status code together
with the body parsed as a JSON list (`none` models a body on which
`response.json()` raises).  The code never reads `status`; the field is
kept in the model precisely so that theorems can state that fact. -/
structure GeoResponse where
  status : Nat
  body : Option (List GeoEntry)
deriving DecidableEq

/-- Outcome of a `requests.get` call: a raised connection error, a raised
timeout, or a response object. -/
inductive NetOutcome (α : Type) where
  | netError
  | timeout
  | ok (response : α)
deriving DecidableEq

/-- Body of the `try:` block of `get_coordinates` (src/app.py lines
73-79) applied to the outcome of its single `requests.get` call.  Both
exception outcomes reach `except: return None`; an unparseable body makes
`response.json()` raise; `if data:` is false exactly on the empty list;
a first element with missing `lat` or `lon` raises a `KeyError` that the
bare `except:` also swallows.  The status code is never inspected. -/
def parse_geocode (outcome : NetOutcome GeoResponse) : Option (ℚ × ℚ) :=
  match outcome with
  | .netError => none
  | .timeout => none
  | .ok response =>
    match response.body with
    | none => none
    | some [] => none
    | some (e :: _) =>
      match e.lat, e.lon with
      | some la, some lo => some (la, lo)
      | _, _ => none

/-- Embedding of `get_coordinates` (src/app.py lines 68-79), instrumented
with the number of network calls it issues.  `net` maps the query string
(the `q` parameter; `format=json`, `limit=1` and the `User-Agent` header
are constants in the code) to the outcome of the single `requests.get`
call.  `if not address_string: return None` fires exactly on the empty
string, since a non-empty Python string is truthy even when it is all
whitespace. -/
def get_coordinates_run (net : String → NetOutcome GeoResponse)
    (address_string : String) : Option (ℚ × ℚ) × Nat :=
  if address_string = "" then (none, 0)
  else (parse_geocode (net address_string), 1)

/-- The value returned by `get_coordinates`, forgetting the call count. -/
def get_coordinates (net : String → NetOutcome GeoResponse)
    (address_string : String) : Option (ℚ × ℚ) :=
  (get_coordinates_run net address_string).1

/-- A string is whitespace-only when every character is ASCII whitespace.
Used only to state claims about whitespace-only addresses. -/
def isWhitespaceOnly (s : String) : Bool :=
  s.data.all fun c => c == ' ' || c == '\t' || c == '\n' || c == '\r'

/-- Embedding of the caller of `get_coordinates` (src/app.py lines
160-164): when resolution failed (`if not coords:` — the result is `None`
or would be a falsy list, and the code only ever produces `None` or a
two-element list), the fixed fallback coordinate `[53.550, 9.992]` is
substituted and `st.warning` is shown.  The boolean records whether the
warning informing the user of the failure was emitted. -/
def resolve_with_fallback (coords : Option (ℚ × ℚ)) : (ℚ × ℚ) × Bool :=
  match coords with
  | none => ((53.550, 9.992), true)
  | some c => (c, false)

/-- Modelled from the spec: the `st.cache_data` read-through cache on
`get_coordinates` (src/app.py line 67).  The cache implementation lives in
the UI framework, not in this repository; the spec describes it as a
read-through result cache keyed precisely on the input address string.
One cached call: on a hit the cached value is returned and no network
call is made; on a miss the body runs and its result is stored. -/
def cached_call (net : String → NetOutcome GeoResponse)
    (cache : List (String × Option (ℚ × ℚ))) (address : String) :
    Option (ℚ × ℚ) × List (String × Option (ℚ × ℚ)) × Nat :=
  match cache.lookup address with
  | some v => (v, cache, 0)
  | none =>
    let r := get_coordinates_run net address
    (r.1, (address, r.1) :: cache, r.2)

/-- Two consecutive cached resolutions of the same address starting from
an empty cache: both results, and the total number of network calls. -/
def resolve_twice (net : String → NetOutcome GeoResponse)
    (address : String) : Option (ℚ × ℚ) × Option (ℚ × ℚ) × Nat :=
  let r1 := cached_call net [] address
  let r2 := cached_call net r1.2.1 address
  (r1.1, r2.1, r1.2.2 + r2.2.2)

/-- One entry of a raw document result `resources` array: the code reads
`res.get("format", "")` and `res.get("url")` (note: no default for the
url, so a missing url key yields Python `None`). -/
structure Resource where
  format : Option String
  url : Option String
deriving DecidableEq

/-- A raw document result as read by `extract_docs` and produced by
`query_transparenzportal`: the code reads `item.get("title")`,
`item.get("metadata_modified", "")`, `item.get("url", "")` and
`item.get("resources", [])`, each key possibly missing. -/
structure RawResult where
  title : Option String
  metadata_modified : Option String
  url : Option String
  resources : Option (List Resource)
deriving DecidableEq

/-- The `result` member of the transparenzportal response envelope; the
code reads `data["result"]["results"]`, raising a `KeyError` (swallowed
by `except:`) when either key is missing. -/
structure TPResult where
  results : Option (List RawResult)
deriving DecidableEq

/-- The transparenzportal JSON response envelope: a `success` flag (a
JSON boolean in the CKAN API schema; `none` models a missing key) and a
nested `result` object. -/
structure TPEnvelope where
  success : Option Bool
  result : Option TPResult
deriving DecidableEq

/-- Python truthiness of `data.get("success")`: a missing key gives
`None`, which is falsy; a present JSON boolean is truthy exactly when it
is `true`. -/
def successTruthy : Option Bool → Bool
  | none => false
  | some b => b

/-- Embedding of `query_transparenzportal` (src/app.py lines 98-104).
`net` maps the query string and row limit (the `q` and `rows` parameters;
`sort` is a constant) to the outcome of the single `requests.get` call,
with the response body already parsed at the envelope schema (`.ok none`
models a body on which `response.json()` raises).  In Python the `limit`
parameter defaults to 5; the default plays no role in any claim, so it is
passed explicitly here.  Every raising branch (network error, timeout,
parse error, missing `result` or `results` key) reaches
`except: return []`. -/
def query_transparenzportal (net : String → Nat → NetOutcome (Option TPEnvelope))
    (search_term : String) (limit : Nat) : List RawResult :=
  match net search_term limit with
  | .netError => []
  | .timeout => []
  | .ok none => []
  | .ok (some data) =>
    if successTruthy data.success then
      match data.result with
      | none => []
      | some r =>
        match r.results with
        | none => []
        | some l => l
    else []

/-- Python `str.lower()` restricted to what `Char.toLower` does; the
formats compared in the code are ASCII. -/
def lowerStr (s : String) : String :=
  String.mk (s.data.map Char.toLower)

/-- Python string slicing `s[:n]`, which slices by characters. -/
def strTake (s : String) (n : Nat) : String :=
  String.mk (s.data.take n)

/-- One cleaned row produced by `extract_docs` (the dict literal at
src/app.py line 115).  `Link` is an `Option` because the Python variable
`link` can end up as `None` when a PDF resource lacks a url key. -/
structure DocRecord where
  Dokument : Option String
  Datum : String
  Link : Option String
deriving DecidableEq

/-- The loop condition at src/app.py line 112:
`res.get("format", "").lower() == "pdf"`. -/
def isPdf (res : Resource) : Bool :=
  lowerStr (res.format.getD "") == "pdf"

/-- The inner loop of `extract_docs` (src/app.py lines 111-114): `link`
holds the running value (initially `item.get("url", "")`); the first
resource whose format lowercases to "pdf" overwrites it with
`res.get("url")` and the loop breaks. -/
def pdfLink : List Resource → Option String → Option String
  | [], link => link
  | res :: rest, link =>
    if isPdf res then res.url else pdfLink rest link

/-- The record appended for one item of `results` (src/app.py lines
109-115): title as-is, `metadata_modified` defaulted to "" and sliced to
its first 10 characters, and the link chosen by the PDF-preferring
loop. -/
def recordOf (item : RawResult) : DocRecord :=
  { Dokument := item.title
    Datum := strTake (item.metadata_modified.getD "") 10
    Link := pdfLink (item.resources.getD []) (some (item.url.getD "")) }

/-- Embedding of `extract_docs` (src/app.py lines 106-116): the loop
appends one cleaned record per input item, in input order. -/
def extract_docs : List RawResult → List DocRecord
  | [] => []
  | item :: rest => recordOf item :: extract_docs rest

/-- A geographic vector feature as the spec describes it: a point or
polygon geometry plus a flat property mapping. -/
structure GeoFeature where
  geometry : List (ℚ × ℚ)
  properties : List (String × String)
deriving DecidableEq

/-- Outcome of one (protocol-version, axis-order) strategy attempt: a
transport failure, or a response that parsed as structured geodata with
some (possibly empty) feature list. -/
inductive StrategyOutcome where
  | transportError
  | parsed (features : List GeoFeature)
deriving DecidableEq

/-- Result of the geo-feature locator: the accepted feature collection, a
valid empty result, or a distinguishable transport error. -/
inductive FindOutcome where
  | found (features : List GeoFeature)
  | empty
  | transportError
deriving DecidableEq

/-- Modelled from the spec: the first strategy attempt, in the fixed
priority order, whose response parses as valid structured geodata and
contains at least one feature.  `findFeatures` itself is part of the
Geo-Feature Locator of spec section 4.2, which has no counterpart in
src/app.py (the file only overlays WMS raster tiles). -/
def firstSuccess : List StrategyOutcome → Option (List GeoFeature)
  | [] => none
  | .parsed (f :: fs) :: _ => some (f :: fs)
  | _ :: rest => firstSuccess rest

/-- All attempts failed at the transport level. -/
def allTransport : List StrategyOutcome → Bool
  | [] => true
  | .transportError :: rest => allTransport rest
  | .parsed _ :: _ => false

/-- Modelled from the spec: `findFeatures` (spec section 4.2) tries the
ordered strategy list and accepts the first outcome that parses and has
at least one feature; if no strategy succeeds, it reports a transport
error when every attempt failed at the transport level and an empty
result otherwise.  Results of distinct strategies are never merged. -/
def findFeatures (attempts : List StrategyOutcome) : FindOutcome :=
  match firstSuccess attempts with
  | some fs => .found fs
  | none =>
    if allTransport attempts && !attempts.isEmpty then .transportError
    else .empty

/-- The PDF-preferring loop computes the url of the first matching
resource, and keeps the initial link when no resource matches. -/
theorem pdfLink_eq_find (rs : List Resource) (link : Option String) :
    pdfLink rs link = ((rs.find? isPdf).map Resource.url).getD link := by
  induction rs with
  | nil => rfl
  | cons r rest ih =>
    by_cases h : isPdf r
    · simp [pdfLink, h, List.find?_cons_of_pos]
    · simp only [pdfLink, h, if_false, Bool.false_eq_true, ih]
      rw [List.find?_cons_of_neg _ (by simpa using h)]

/-- `extract_docs` builds exactly one record per input item. -/
theorem extract_docs_eq_map (results : List RawResult) :
    extract_docs results = results.map recordOf := by
  induction results with
  | nil => rfl
  | cons item rest ih => simp [extract_docs, ih]

/-- A prefix of strategy attempts that all failed (transport error or
zero features) does not affect which strategy succeeds first. -/
theorem firstSuccess_append (pre l : List StrategyOutcome)
    (hpre : ∀ a ∈ pre, a = .transportError ∨ a = .parsed []) :
    firstSuccess (pre ++ l) = firstSuccess l := by
  induction pre with
  | nil => rfl
  | cons a rest ih =>
    have ha := hpre a (List.mem_cons_self a rest)
    have hrest : ∀ b ∈ rest, b = StrategyOutcome.transportError ∨
        b = StrategyOutcome.parsed [] :=
      fun b hb => hpre b (List.mem_cons_of_mem a hb)
    rcases ha with rfl | rfl
    · simpa [firstSuccess] using ih hrest
    · simpa [firstSuccess] using ih hrest

/-- Claim C1: whenever address resolution fails (`get_coordinates`
returns no coordinate), the caller substitutes the fixed fallback
coordinate `[53.550, 9.992]` and is informed of the failure (the warning
fires exactly on failure, so a failed resolution is distinguishable from
a resolved one), and every location still gets some coordinate (the
resolution step is total). -/
theorem C1_fallback_substituted_and_informed (r : Option (ℚ × ℚ)) :
    (r = none → resolve_with_fallback r = ((53.550, 9.992), true)) ∧
    (∀ c, r = some c → resolve_with_fallback r = (c, false)) ∧
    ((resolve_with_fallback r).2 = true ↔ r = none) := by
  cases r <;> simp [resolve_with_fallback]

/-- Witness for C1 at concrete inputs: a failed resolution yields the
fallback with the warning, a successful one yields the coordinate with no
warning. -/
theorem C1_witness :
    resolve_with_fallback none = ((53.550, 9.992), true) ∧
    resolve_with_fallback (some (53, 10)) = ((53, 10), false) :=
  ⟨(C1_fallback_substituted_and_informed none).1 rfl,
   (C1_fallback_substituted_and_informed (some (53, 10))).2.1 (53, 10) rfl⟩

/-- Counterexample to claim C2: the whitespace-only address `" "` is
non-empty, hence truthy in Python, so `get_coordinates` does issue a
network call on it (here one call, whatever the network outcome), contrary
to the claim that every whitespace-only address fails with no network
call. -/
theorem C2_counterexample :
    isWhitespaceOnly " " = true ∧ (" " : String) ≠ "" ∧
    (get_coordinates_run (fun _ => NetOutcome.netError) " ").2 = 1 := by
  refine ⟨by decide, by decide, ?_⟩
  rw [get_coordinates_run, if_neg (by decide)]

/-- Claim C2 (amended): `get_coordinates` returns `None` immediately with
no network call exactly for the empty address string; every non-empty
address, including whitespace-only ones, issues exactly one network
call. -/
theorem C2_amended_empty_only (net : String → NetOutcome GeoResponse) :
    get_coordinates_run net "" = (none, 0) ∧
    ∀ s : String, s ≠ "" → (get_coordinates_run net s).2 = 1 := by
  constructor
  · rfl
  · intro s hs
    rw [get_coordinates_run, if_neg hs]

/-- Witness for C2 (amended) at a concrete non-empty address. -/
theorem C2_amended_witness :
    (get_coordinates_run (fun _ => NetOutcome.netError) "Hochrad 2, 22605 Hamburg").2 = 1 :=
  (C2_amended_empty_only (fun _ => NetOutcome.netError)).2
    "Hochrad 2, 22605 Hamburg" (by decide)

/-- Counterexample to claim C3: the code performs no bounds validation,
so a service response whose first entry carries latitude 1000 is passed
through verbatim even though 1000 is far outside -90..90; the claim that
every successfully resolved address yields in-bounds coordinates fails. -/
theorem C3_counterexample :
    get_coordinates (fun _ => NetOutcome.ok ⟨200, some [⟨some 1000, some 0⟩]⟩)
        "Hochrad 2, 22605 Hamburg" = some (1000, 0) ∧
    ¬ ((1000 : ℚ) ≤ 90) := by
  constructor
  · rw [get_coordinates, get_coordinates_run, if_neg (by decide)]
    rfl
  · norm_num

/-- Claim C3 (amended): `get_coordinates` returns the first result entry
of a successful (non-empty) service response unchanged, so its coordinate
lies within -90..90 latitude and -180..180 longitude exactly when the
values sent by the service do. -/
theorem C3_amended_bounds_passthrough (net : String → NetOutcome GeoResponse)
    (addr : String) (resp : GeoResponse) (e : GeoEntry) (rest : List GeoEntry)
    (la lo : ℚ) (ha : addr ≠ "") (hn : net addr = .ok resp)
    (hb : resp.body = some (e :: rest)) (hla : e.lat = some la)
    (hlo : e.lon = some lo) (hla90 : -90 ≤ la ∧ la ≤ 90)
    (hlo180 : -180 ≤ lo ∧ lo ≤ 180) :
    get_coordinates net addr = some (la, lo) ∧
    -90 ≤ la ∧ la ≤ 90 ∧ -180 ≤ lo ∧ lo ≤ 180 := by
  refine ⟨?_, hla90.1, hla90.2, hlo180.1, hlo180.2⟩
  rw [get_coordinates, get_coordinates_run, if_neg ha]
  simp [parse_geocode, hn, hb, hla, hlo]

/-- Witness for C3 (amended) at a concrete in-bounds service response. -/
theorem C3_amended_witness :
    get_coordinates (fun _ => NetOutcome.ok ⟨200, some [⟨some 53.550, some 9.992⟩]⟩)
        "Hochrad 2, 22605 Hamburg" = some (53.550, 9.992) ∧
    -90 ≤ (53.550 : ℚ) ∧ (53.550 : ℚ) ≤ 90 ∧
    -180 ≤ (9.992 : ℚ) ∧ (9.992 : ℚ) ≤ 180 :=
  C3_amended_bounds_passthrough
    (fun _ => NetOutcome.ok ⟨200, some [⟨some 53.550, some 9.992⟩]⟩)
    "Hochrad 2, 22605 Hamburg" ⟨200, some [⟨some 53.550, some 9.992⟩]⟩
    ⟨some 53.550, some 9.992⟩ [] 53.550 9.992 (by decide) rfl rfl rfl rfl
    (by norm_num) (by norm_num)

/-- Claim C4: for every raw document result, `extract_docs` selects as
the record link the url of the first attached resource whose format
equals "pdf" case-insensitively (`List.find? isPdf` is that first
resource); when no resource has a PDF format it falls back to the result
top-level url field (defaulted to "" when missing). -/
theorem C4_pdf_preference (item : RawResult) :
    ((item.resources.getD []).find? isPdf = none →
      extract_docs [item] = [⟨item.title,
        strTake (item.metadata_modified.getD "") 10,
        some (item.url.getD "")⟩]) ∧
    (∀ res : Resource, (item.resources.getD []).find? isPdf = some res →
      extract_docs [item] = [⟨item.title,
        strTake (item.metadata_modified.getD "") 10,
        res.url⟩]) := by
  constructor
  · intro h
    simp [extract_docs, recordOf, pdfLink_eq_find, h]
  · intro res h
    simp [extract_docs, recordOf, pdfLink_eq_find, h]

/-- Witness for C4 at the spec fixtures: with resources
`[{format: "html", url: "a"}, {format: "PDF", url: "b"}]` the link is
`"b"` (case-insensitive match, first PDF wins), and with no PDF resource
the link falls back to the top-level url. -/
theorem C4_witness :
    extract_docs [⟨some "T", some "2024-01-02T03:04:05", some "landing",
        some [⟨some "html", some "a"⟩, ⟨some "PDF", some "b"⟩]⟩] =
      [⟨some "T", strTake "2024-01-02T03:04:05" 10, some "b"⟩] ∧
    extract_docs [⟨some "T", some "2024-01-02T03:04:05", some "landing",
        some [⟨some "html", some "a"⟩]⟩] =
      [⟨some "T", strTake "2024-01-02T03:04:05" 10, some "landing"⟩] :=
  ⟨(C4_pdf_preference ⟨some "T", some "2024-01-02T03:04:05", some "landing",
      some [⟨some "html", some "a"⟩, ⟨some "PDF", some "b"⟩]⟩).2
      ⟨some "PDF", some "b"⟩ (by decide),
   (C4_pdf_preference ⟨some "T", some "2024-01-02T03:04:05", some "landing",
      some [⟨some "html", some "a"⟩]⟩).1 (by decide)⟩

/-- Counterexample to claim C5: `get_coordinates` never inspects the HTTP
status code, so a non-2xx response whose body still parses as a non-empty
JSON result list does NOT collapse to the failure value `None` — here a
status-500 response yields a coordinate. -/
theorem C5_counterexample :
    get_coordinates (fun _ => NetOutcome.ok ⟨500, some [⟨some 53, some 10⟩]⟩)
        "Hochrad 2, 22605 Hamburg" = some (53, 10) ∧
    some ((53 : ℚ), (10 : ℚ)) ≠ none := by
  constructor
  · rw [get_coordinates, get_coordinates_run, if_neg (by decide)]
    rfl
  · simp

/-- Claim C5 (amended): network error, timeout, an unparseable response
body, and an empty result list all collapse to the single failure value
`None`, indistinguishable to the caller; the HTTP status code is never
inspected (the result is invariant under changing it), so a non-2xx
response fails only through its body. -/
theorem C5_amended_failures_collapse (addr : String) (st st2 : Nat)
    (body : Option (List GeoEntry)) (ha : addr ≠ "") :
    get_coordinates (fun _ => NetOutcome.netError) addr = none ∧
    get_coordinates (fun _ => NetOutcome.timeout) addr = none ∧
    get_coordinates (fun _ => NetOutcome.ok ⟨st, none⟩) addr = none ∧
    get_coordinates (fun _ => NetOutcome.ok ⟨st, some []⟩) addr = none ∧
    get_coordinates (fun _ => NetOutcome.ok ⟨st, body⟩) addr =
      get_coordinates (fun _ => NetOutcome.ok ⟨st2, body⟩) addr := by
  refine ⟨?_, ?_, ?_, ?_, ?_⟩ <;>
    rw [get_coordinates, get_coordinates_run, if_neg ha] <;>
    first
      | rfl
      | (rw [get_coordinates, get_coordinates_run, if_neg ha]
         cases body with
         | none => rfl
         | some data => cases data <;> rfl)

/-- Witness for C5 (amended) at a concrete address and statuses. -/
theorem C5_amended_witness :
    get_coordinates (fun _ => NetOutcome.netError) "Hochrad 2" = none ∧
    get_coordinates (fun _ => NetOutcome.timeout) "Hochrad 2" = none ∧
    get_coordinates (fun _ => NetOutcome.ok ⟨500, none⟩) "Hochrad 2" = none ∧
    get_coordinates (fun _ => NetOutcome.ok ⟨500, some []⟩) "Hochrad 2" = none ∧
    get_coordinates (fun _ => NetOutcome.ok ⟨500, some [⟨some 1, some 2⟩]⟩) "Hochrad 2" =
      get_coordinates (fun _ => NetOutcome.ok ⟨200, some [⟨some 1, some 2⟩]⟩) "Hochrad 2" :=
  C5_amended_failures_collapse "Hochrad 2" 500 200
    (some [⟨some 1, some 2⟩]) (by decide)

/-- Claim C6: `query_transparenzportal` maps a network error, a timeout,
a parse error, and a response whose success flag is not `true` (missing
or `false`) to the empty list; being a total function, it never raises an
error visible to the caller.  It also returns the empty list when the
upstream reports success with an empty result list (the spec fixture for
the empty query). -/
theorem C6_failures_yield_empty (net : String → Nat → NetOutcome (Option TPEnvelope))
    (q : String) (limit : Nat) :
    (net q limit = .netError → query_transparenzportal net q limit = []) ∧
    (net q limit = .timeout → query_transparenzportal net q limit = []) ∧
    (net q limit = .ok none → query_transparenzportal net q limit = []) ∧
    (∀ env : TPEnvelope, net q limit = .ok (some env) → env.success ≠ some true →
      query_transparenzportal net q limit = []) ∧
    (∀ env : TPEnvelope, net q limit = .ok (some env) → env.success = some true →
      env.result = some ⟨some []⟩ → query_transparenzportal net q limit = []) := by
  refine ⟨?_, ?_, ?_, ?_, ?_⟩
  · intro h; simp [query_transparenzportal, h]
  · intro h; simp [query_transparenzportal, h]
  · intro h; simp [query_transparenzportal, h]
  · intro env h hs
    rcases env with ⟨su, re⟩
    rcases su with _ | b
    · simp [query_transparenzportal, h, successTruthy]
    · cases b
      · simp [query_transparenzportal, h, successTruthy]
      · exact absurd rfl hs
  · intro env h hs hr
    rcases env with ⟨su, re⟩
    cases hs
    cases hr
    simp [query_transparenzportal, h, successTruthy]

/-- Witness for C6 at concrete oracles: a network error and the spec
fixture (empty query, success `true`, empty results) both yield the empty
list. -/
theorem C6_witness :
    query_transparenzportal (fun _ _ => NetOutcome.netError) "" 5 = [] ∧
    query_transparenzportal
      (fun _ _ => NetOutcome.ok (some ⟨some true, some ⟨some []⟩⟩)) "" 5 = [] :=
  ⟨(C6_failures_yield_empty (fun _ _ => NetOutcome.netError) "" 5).1 rfl,
   (C6_failures_yield_empty
      (fun _ _ => NetOutcome.ok (some ⟨some true, some ⟨some []⟩⟩)) "" 5).2.2.2.2
      ⟨some true, some ⟨some []⟩⟩ rfl rfl rfl⟩

/-- Claim C7: for every raw document result present in the input, the
record field `Datum` is the `metadata_modified` value truncated to its
first 10 characters (the `YYYY-MM-DD` day part of the ISO datetime). -/
theorem C7_date_truncation (results : List RawResult) (i : Nat)
    (item : RawResult) (s : String) (hi : results[i]? = some item)
    (hm : item.metadata_modified = some s) :
    ∃ rec : DocRecord, (extract_docs results)[i]? = some rec ∧
      rec.Datum = strTake s 10 := by
  refine ⟨recordOf item, ?_, ?_⟩
  · rw [extract_docs_eq_map, List.getElem?_map, hi]
    rfl
  · simp [recordOf, hm]

/-- Witness for C7 at a concrete ISO datetime, checking the truncated
value is the date part. -/
theorem C7_witness :
    (∃ rec : DocRecord,
      (extract_docs [⟨some "T", some "2023-05-17T12:00:00", none, none⟩])[0]? = some rec ∧
      rec.Datum = strTake "2023-05-17T12:00:00" 10) ∧
    strTake "2023-05-17T12:00:00" 10 = "2023-05-17" :=
  ⟨C7_date_truncation [⟨some "T", some "2023-05-17T12:00:00", none, none⟩] 0
      ⟨some "T", some "2023-05-17T12:00:00", none, none⟩ "2023-05-17T12:00:00"
      rfl rfl,
   rfl⟩

/-- Claim C8: `findFeatures` tries its strategies in the fixed priority
order and returns exactly the feature list of the first strategy whose
response parses and is non-empty; any prefix of failed attempts
(transport errors or zero-feature parses) is skipped, the remaining
strategies are never consulted, and no merging or averaging across
strategies occurs — the result is the succeeding strategy feature list
itself, so its size equals that strategy result size. -/
theorem C8_first_success_wins (pre post : List StrategyOutcome)
    (fs : List GeoFeature)
    (hpre : ∀ a ∈ pre, a = StrategyOutcome.transportError ∨
      a = StrategyOutcome.parsed [])
    (hfs : fs ≠ []) :
    findFeatures (pre ++ StrategyOutcome.parsed fs :: post) =
      FindOutcome.found fs := by
  rcases fs with _ | ⟨f, fs⟩
  · exact absurd rfl hfs
  · rw [findFeatures, firstSuccess_append pre _ hpre]
    rfl

/-- Witness for C8 at the spec fixture: strategy A (after one transport
failure) yields 2 features, strategy B would yield 5; the result is
exactly the 2 features of A. -/
theorem C8_witness :
    findFeatures [StrategyOutcome.transportError,
      StrategyOutcome.parsed [⟨[(53, 10)], [("id", "a1")]⟩, ⟨[(53, 11)], [("id", "a2")]⟩],
      StrategyOutcome.parsed [⟨[(1, 1)], []⟩, ⟨[(2, 2)], []⟩, ⟨[(3, 3)], []⟩,
        ⟨[(4, 4)], []⟩, ⟨[(5, 5)], []⟩]] =
      FindOutcome.found [⟨[(53, 10)], [("id", "a1")]⟩, ⟨[(53, 11)], [("id", "a2")]⟩] ∧
    ([⟨[(53, 10)], [("id", "a1")]⟩, ⟨[(53, 11)], [("id", "a2")]⟩] : List GeoFeature).length = 2 :=
  ⟨C8_first_success_wins [StrategyOutcome.transportError]
      [StrategyOutcome.parsed [⟨[(1, 1)], []⟩, ⟨[(2, 2)], []⟩, ⟨[(3, 3)], []⟩,
        ⟨[(4, 4)], []⟩, ⟨[(5, 5)], []⟩]]
      [⟨[(53, 10)], [("id", "a1")]⟩, ⟨[(53, 11)], [("id", "a2")]⟩]
      (by intro a ha; simp at ha; simp [ha]) (by simp),
   rfl⟩

/-- Counterexample to claim C9: resolving the empty address twice issues
zero network calls, not exactly one, because the empty string is rejected
before the request is built. -/
theorem C9_counterexample :
    (resolve_twice (fun _ => NetOutcome.netError) "").2.2 = 0 ∧ (0 : Nat) ≠ 1 :=
  ⟨rfl, by decide⟩

/-- Claim C9 (amended): with the read-through cache enabled, resolving
the same address twice issues at most one network call in total — exactly
one when the address is non-empty, zero for the empty address, which is
rejected before any request — and both calls return the same result. -/
theorem C9_amended_cached_twice (net : String → NetOutcome GeoResponse)
    (address : String) :
    (resolve_twice net address).1 = (resolve_twice net address).2.1 ∧
    (resolve_twice net address).2.2 ≤ 1 ∧
    (address ≠ "" → (resolve_twice net address).2.2 = 1) := by
  have hcached : cached_call net [] address =
      ((get_coordinates_run net address).1,
        [(address, (get_coordinates_run net address).1)],
        (get_coordinates_run net address).2) := by
    rfl
  have hhit : ∀ v : Option (ℚ × ℚ),
      cached_call net [(address, v)] address = (v, [(address, v)], 0) := by
    intro v
    rw [cached_call]
    simp [List.lookup]
  refine ⟨?_, ?_, ?_⟩
  · rw [resolve_twice]
    simp only [hcached, hhit]
  · rw [resolve_twice]
    simp only [hcached, hhit]
    rw [get_coordinates_run]
    split <;> simp
  · intro ha
    rw [resolve_twice]
    simp only [hcached, hhit]
    rw [get_coordinates_run, if_neg ha]

/-- Witness for C9 (amended) at a concrete non-empty address: one network
call in total and equal results. -/
theorem C9_amended_witness :
    (resolve_twice (fun _ => NetOutcome.netError) "Hochrad 2").1 =
      (resolve_twice (fun _ => NetOutcome.netError) "Hochrad 2").2.1 ∧
    (resolve_twice (fun _ => NetOutcome.netError) "Hochrad 2").2.2 = 1 :=
  ⟨(C9_amended_cached_twice (fun _ => NetOutcome.netError) "Hochrad 2").1,
   (C9_amended_cached_twice (fun _ => NetOutcome.netError) "Hochrad 2").2.2
     (by decide)⟩

/-- Claim C10: `extract_docs` is total (it is a Lean function, so no
exception can escape), returns exactly one record per input item in input
order, a missing `metadata_modified` key makes the record `Datum` the
empty string, and a missing `url` key (with no PDF resource to override
it, in particular with a missing `resources` key) makes the record `Link`
the empty string. -/
theorem C10_total_one_record_defaults (results : List RawResult) :
    (extract_docs results).length = results.length ∧
    (∀ (i : Nat) (item : RawResult), results[i]? = some item →
      (extract_docs results)[i]? = some (recordOf item)) ∧
    (∀ item : RawResult, item.metadata_modified = none →
      (recordOf item).Datum = "") ∧
    (∀ item : RawResult, item.url = none →
      (item.resources.getD []).find? isPdf = none →
      (recordOf item).Link = some "") := by
  refine ⟨?_, ?_, ?_, ?_⟩
  · rw [extract_docs_eq_map, List.length_map]
  · intro i item hi
    rw [extract_docs_eq_map, List.getElem?_map, hi]
    rfl
  · intro item hm
    simp [recordOf, hm, strTake]
  · intro item hu hres
    simp [recordOf, hu, pdfLink_eq_find, hres]

/-- Witness for C10 at the item with all optional keys missing: one
record is produced, with empty-string date and link defaults. -/
theorem C10_witness :
    (extract_docs [⟨none, none, none, none⟩]).length = 1 ∧
    (extract_docs [⟨none, none, none, none⟩])[0]? =
      some (recordOf ⟨none, none, none, none⟩) ∧
    (recordOf ⟨none, none, none, none⟩).Datum = "" ∧
    (recordOf ⟨none, none, none, none⟩).Link = some "" :=
  ⟨(C10_total_one_record_defaults [⟨none, none, none, none⟩]).1,
   (C10_total_one_record_defaults [⟨none, none, none, none⟩]).2.1 0
     ⟨none, none, none, none⟩ rfl,
   (C10_total_one_record_defaults [⟨none, none, none, none⟩]).2.2.1
     ⟨none, none, none, none⟩ rfl,
   (C10_total_one_record_defaults [⟨none, none, none, none⟩]).2.2.2
     ⟨none, none, none, none⟩ rfl rfl⟩

end HHMonitor
